import Mathlib

/-!
Verification of the AI-house property backend's LLM-intent-to-SQL pipeline.

Shallow embedding of the Python sources:
  backend/utils/property_parser.py   (validator, fallback extractor)
  backend/services/llm_service.py    (parse_property_text and helpers)
  backend/services/chat_service.py   (intent extraction, SQL generation gate,
                                      query execution, confirmation dispatch)

Modelling conventions:
  - Python strings are `List Char`; Python floats are exact rationals `ℚ`
    (every claim below is an order/threshold property, not a rounding property);
  - fallible Python code (caught exceptions) returns `Option`;
  - the external chat-model endpoint and `json.loads` (stdlib) are abstracted
    as parameters: an `Option (List Char)` response (none = transport error,
    timeout, or missing client) and a `loads : List Char → Option Json`
    oracle, so theorems quantify over every behaviour of those collaborators;
  - the relational store is abstracted as `Option (columns × rows)`
    (none = any store-level execution error);
  - `str.lower`/`str.upper` are modelled by `Char.toLower`/`Char.toUpper`
    (the repository's keyword data is Chinese and caseless, so only the
    ASCII range is ever exercised);
  - Python's `\s` / `str.strip` whitespace class is modelled by `pyIsSpace`
    covering the ASCII whitespace plus the common Unicode space codepoints.
-/

/-- Whitespace test used by `str.strip()` and the regex class `\s`
(ASCII whitespace plus the usual Unicode space codepoints). -/
def pyIsSpace (c : Char) : Bool :=
  c == ' ' || c == '\t' || c == '\n' || c == '\r' || c == '\x0b' || c == '\x0c' ||
  (0x1c ≤ c.toNat && c.toNat ≤ 0x1f) ||
  c == '\x85' || c == '\xa0' || c == ' ' ||
  (0x2000 ≤ c.toNat && c.toNat ≤ 0x200a) ||
  c == ' ' || c == ' ' || c == ' ' || c == ' ' || c == '　'

/-- Python `str.lower()` (ASCII case mapping; CJK text is caseless). -/
def pyLower (s : List Char) : List Char := s.map Char.toLower

/-- Python `str.upper()` (ASCII case mapping; CJK text is caseless). -/
def pyUpper (s : List Char) : List Char := s.map Char.toUpper

/-- Python `str.strip()`: drop leading and trailing whitespace. -/
def pyStrip (s : List Char) : List Char :=
  ((s.dropWhile pyIsSpace).reverse.dropWhile pyIsSpace).reverse

/-- Python's substring test `p in s` (empty pattern matches everywhere). -/
def listInfixB (p : List Char) : List Char → Bool
  | [] => p.isEmpty
  | c :: t => p.isPrefixOf (c :: t) || listInfixB p t

/-- Word character for the regex `\b` boundary: ASCII alphanumerics,
underscore, and the CJK unified range (the only non-ASCII word characters
occurring in this repository's keyword data). -/
def pyIsWordChar (c : Char) : Bool :=
  c.isAlphanum || c == '_' || (0x4E00 ≤ c.toNat && c.toNat ≤ 0x9FFF)

section AssocList

variable {α : Type}

/-- Python `dict` lookup (`d.get(k)`), first binding wins. -/
def lookupAssoc : List (String × α) → String → Option α
  | [], _ => none
  | (k, v) :: rest, key => if k = key then some v else lookupAssoc rest key

/-- Python `dict` assignment `d[k] = v`: replace the existing binding in place,
else append. -/
def setAssoc : List (String × α) → String → α → List (String × α)
  | [], k, v => [(k, v)]
  | (k0, v0) :: rest, k, v =>
    if k0 = k then (k0, v) :: rest else (k0, v0) :: setAssoc rest k v

end AssocList

/-- JSON values as produced by `json.loads`. -/
inductive Json where
  | null : Json
  | bool (b : Bool) : Json
  | num (q : ℚ) : Json
  | str (s : String) : Json
  | arr (elems : List Json) : Json
  | obj (entries : List (String × Json)) : Json

/-! ### Fenced-JSON-block extraction

`chat_service.py` locates embedded JSON with
`re.findall(r'```json\s*(\{.*?\})\s*```', response, re.DOTALL)` and then
uses only `matches[0]`.  We model exactly the first match (leftmost start;
the non-greedy `.*?` stops at the earliest closing brace that is followed
by optional whitespace and a closing fence).  The greedy `\s*` pieces are
equivalent to "drop all whitespace then demand the next literal", because
neither `{` nor a backquote is whitespace. -/

/-- The backquote character. -/
def backquote : Char := Char.ofNat 96

/-- The opening-fence literal of the extraction regex. -/
def fenceJson : List Char := [backquote, backquote, backquote, 'j', 's', 'o', 'n']

/-- The closing-fence literal of the extraction regex. -/
def fenceEnd : List Char := [backquote, backquote, backquote]

/-- The `\x7b` character. -/
def openBrace : Char := Char.ofNat 123

/-- The `\x7d` character. -/
def closeBrace : Char := Char.ofNat 125

/-- After a candidate closing brace: `\s*` then the closing fence. -/
def isFenceNext (s : List Char) : Bool :=
  fenceEnd.isPrefixOf (s.dropWhile pyIsSpace)

/-- Scan for the earliest closing brace whose suffix completes the fence
(the non-greedy `.*?` of the extraction regex); `acc` holds the inner
characters consumed so far, reversed. -/
def findCloseBrace (acc : List Char) : List Char → Option (List Char)
  | [] => none
  | c :: t =>
    if c == closeBrace && isFenceNext t then
      some (openBrace :: (acc.reverse ++ [closeBrace]))
    else
      findCloseBrace (c :: acc) t

/-- Try to match the extraction regex at the head of `s`; returns the
captured group `\x7b...\x7d` on success. -/
def matchFenceAt (s : List Char) : Option (List Char) :=
  if fenceJson.isPrefixOf s then
    match (s.drop 7).dropWhile pyIsSpace with
    | c :: t => if c == openBrace then findCloseBrace [] t else none
    | [] => none
  else none

/-- First match of the fenced-JSON regex in `response` (`matches[0]` of
`re.findall`), i.e. the leftmost position where the pattern matches. -/
def firstJsonBlock : List Char → Option (List Char)
  | [] => none
  | c :: t =>
    match matchFenceAt (c :: t) with
    | some cap => some cap
    | none => firstJsonBlock t

/-! ### `property_parser.py` — validator (`PropertyParsingValidator`) -/

/-- Source `PropertyParsingValidator.RENT_KEYWORDS`. -/
def RENT_KEYWORDS : List String :=
  ["租", "出租", "月租", "押金", "月付", "租金", "租房",
   "押一付三", "押二付一", "押一付一", "包水电", "中介费"]

/-- Source `PropertyParsingValidator.SALE_KEYWORDS`. -/
def SALE_KEYWORDS : List String :=
  ["售", "出售", "万元", "总价", "首付", "按揭", "售房", "买房",
   "房价", "单价", "平米", "贷款", "过户", "税费"]

/-- Source `ValidationResult`: `is_valid`, `message`, `suggestions`.
Warning/message texts that interpolate a numeric value in the source are
carried here with the number elided — no claim below reads message text. -/
structure ValidationResult where
  is_valid : Bool
  message : String
  suggestions : List String

/-- Regex search `\b<kw>\b` over `text` (whole-word bonus check of
`_calculate_keyword_score`).  Every keyword in the two lists consists of
word characters only, so the boundary conditions reduce to: the character
before (resp. after) the occurrence is absent or a non-word character.
`prev` is the character just before the current scan position. -/
def wholeWordSearch (kw : List Char) (prev : Option Char) : List Char → Bool
  | [] => false
  | c :: t =>
    ((match prev with
      | none => true
      | some d => !(pyIsWordChar d)) &&
     kw.isPrefixOf (c :: t) &&
     (match (c :: t).drop kw.length with
      | [] => true
      | d :: _ => !(pyIsWordChar d))) ||
    wholeWordSearch kw (some c) t

/-- Source `PropertyParsingValidator._calculate_keyword_score`: one point per
keyword occurring as a substring of the lowercased text, plus one bonus
point when it also matches as a whole word (`\b...\b`). -/
def calculateKeywordScore (keywords : List String) (text : List Char) : Nat :=
  let textLower := pyLower text
  keywords.foldl
    (fun score kw =>
      if listInfixB kw.toList textLower then
        score + 1 + (if wholeWordSearch kw.toList none textLower then 1 else 0)
      else score)
    0

/-- Digit-run value, `digitsVal "123" = 123`. -/
def digitsVal (ds : List Char) : Nat :=
  ds.foldl (fun acc c => acc * 10 + (c.toNat - 48)) 0

/-- Value of a fractional digit run, `fracVal "25" = 25/100`. -/
def fracVal (fs : List Char) : ℚ :=
  (digitsVal fs : ℚ) / (10 ^ fs.length)

/-- Does the list start a fractional part `\.\d`? -/
def startsFrac : List Char → Bool
  | c :: d :: _ => c == '.' && d.isDigit
  | _ => false

/-- Scanner state for the maximal-munch token scan of
`re.findall(r'\d+(?:\.\d+)?', text)`: outside a number, inside the integer
digits, just past a dot, or inside the fractional digits. -/
inductive NumScanState where
  | idle : NumScanState
  | inInt (ds : List Char) : NumScanState
  | seenDot (ds : List Char) : NumScanState
  | inFrac (ds fs : List Char) : NumScanState

/-- Value of a completed token in a given scanner state. -/
def numScanFlush : NumScanState → List ℚ
  | NumScanState.idle => []
  | NumScanState.inInt ds => [(digitsVal ds : ℚ)]
  | NumScanState.seenDot ds => [(digitsVal ds : ℚ)]
  | NumScanState.inFrac ds fs => [(digitsVal ds : ℚ) + fracVal fs]

/-- One step of the number scanner.  A dot is part of the token only when
a digit follows; a dot with no digit after it ends the token (the regex's
optional group `(?:\.\d+)?` requires at least one fractional digit), and a
non-digit character never starts a token. -/
def numScanStep : NumScanState × List ℚ → Char → NumScanState × List ℚ
  | (NumScanState.idle, out), c =>
    if c.isDigit then (NumScanState.inInt [c], out) else (NumScanState.idle, out)
  | (NumScanState.inInt ds, out), c =>
    if c.isDigit then (NumScanState.inInt (ds ++ [c]), out)
    else if c == '.' then (NumScanState.seenDot ds, out)
    else (NumScanState.idle, out ++ [(digitsVal ds : ℚ)])
  | (NumScanState.seenDot ds, out), c =>
    if c.isDigit then (NumScanState.inFrac ds [c], out)
    else (NumScanState.idle, out ++ [(digitsVal ds : ℚ)])
  | (NumScanState.inFrac ds fs, out), c =>
    if c.isDigit then (NumScanState.inFrac ds (fs ++ [c]), out)
    else (NumScanState.idle, out ++ [(digitsVal ds : ℚ) + fracVal fs])

/-- Regex `re.findall(r'\d+(?:\.\d+)?', text)` with each match read as an exact
rational (`float(num)` in the source): maximal digit runs, optionally
followed by a dot and a further maximal digit run.  Implemented as a
left-to-right maximal-munch scan, which is exactly the matching discipline
of `findall` for this pattern (greedy runs; the pattern cannot overlap
itself, and backtracking can never shorten a run, because the characters
that would follow a shortened run are digits or a bare dot, which the
pattern's continuation never accepts). -/
def scanNumbers (s : List Char) : List ℚ :=
  let final := s.foldl numScanStep (NumScanState.idle, [])
  final.2 ++ numScanFlush final.1

/-- Value `prices[0]` after the descending sort: the maximum of a nonempty list
(`0` for the empty list, matching `prices[0] if prices else 0`). -/
def listMaxQ : List ℚ → ℚ
  | [] => 0
  | x :: xs => xs.foldl max x

/-- Source `PropertyParsingValidator._validate_price_context`. -/
def validatePriceContext (text : List Char) (parsedType : String) : ValidationResult :=
  let numbers := scanNumbers text
  if numbers.isEmpty then
    ⟨true, "未找到价格信息", []⟩
  else
    let maxPrice := listMaxQ numbers
    if parsedType = "rent" then
      if 500 ≤ maxPrice ∧ maxPrice ≤ 20000 then
        ⟨true, "价格符合租房特征", []⟩
      else if maxPrice > 100000 then
        ⟨false, "价格更像售价", []⟩
      else
        ⟨true, "价格上下文验证通过", []⟩
    else
      if maxPrice ≥ 300000 then
        ⟨true, "价格符合售房特征", []⟩
      else if maxPrice ≤ 50000 then
        ⟨false, "价格更像租金", []⟩
      else
        ⟨true, "价格上下文验证通过", []⟩

/-- Source `PropertyParsingValidator.validate_property_type`.  (`parsed_type` is
compared against `PropertyType.RENT.value = "rent"`; anything else takes
the sale branch.) -/
def validatePropertyType (text : List Char) (parsedType : String) : ValidationResult :=
  let rentScore := calculateKeywordScore RENT_KEYWORDS text
  let saleScore := calculateKeywordScore SALE_KEYWORDS text
  let priceValidation := validatePriceContext text parsedType
  if parsedType = "rent" then
    if rentScore ≥ saleScore || priceValidation.is_valid then
      ⟨true, "房屋类型识别正确：租房", []⟩
    else
      ⟨false, "房屋类型可能识别错误，建议检查是否为售房",
       ["检查文本中是否包含售房相关信息", "确认价格是否为售价而非租金"]⟩
  else
    if saleScore ≥ rentScore || priceValidation.is_valid then
      ⟨true, "房屋类型识别正确：售房", []⟩
    else
      ⟨false, "房屋类型可能识别错误，建议检查是否为租房",
       ["检查文本中是否包含租房相关信息", "确认价格是否为租金而非售价"]⟩

/-- Source `PropertyParsingValidator.RENT_PRICE_RANGE`. -/
def RENT_PRICE_RANGE : ℚ × ℚ := (100, 50000)

/-- Source `PropertyParsingValidator.SALE_PRICE_RANGE`. -/
def SALE_PRICE_RANGE : ℚ × ℚ := (1, 10000)

/-- Source `PropertyParsingValidator.validate_price_range`.  Note: since the
source comment `改为True，不再报错`, the out-of-range branches return
`is_valid = True` (advisory suggestions only); the only `False` return is
the unreachable exception handler, which a pure embedding omits. -/
def validatePriceRange (propertyType : String) (price : Option ℚ) : ValidationResult :=
  match price with
  | none => ⟨true, "价格为空，跳过验证", []⟩
  | some p =>
    if propertyType = "rent" then
      if RENT_PRICE_RANGE.1 ≤ p ∧ p ≤ RENT_PRICE_RANGE.2 then
        ⟨true, "月租金在合理范围内", []⟩
      else
        ⟨true, "月租金",
         ["价格较为特殊，请确认单位是否正确", "常见月租金范围：100-50000 元"]⟩
    else
      if SALE_PRICE_RANGE.1 ≤ p ∧ p ≤ SALE_PRICE_RANGE.2 then
        ⟨true, "售价在合理范围内", []⟩
      else
        ⟨true, "售价",
         ["价格较为特殊，请确认单位是否正确", "常见售价范围：1-10000 万元"]⟩

/-! ### `property_parser.py` — fallback extractor (`PropertyParsingFallback`)

The regex helpers below implement `re.search` for the fixed patterns of the
fallback extractor: scan start positions left to right and try the pattern
at each.  In every pattern a greedy `\d+` run is followed by a literal that
begins with a non-digit character, so regex backtracking can never shorten
a run and maximal-munch matching is exact. -/

/-- Source `PropertyParsingFallback._guess_property_type`: bare substring counts
over the raw text (no lowercasing, no whole-word bonus); rent wins ties. -/
def guessPropertyType (text : List Char) : String :=
  let rentCount := (RENT_KEYWORDS.filter (fun kw => listInfixB kw.toList text)).length
  let saleCount := (SALE_KEYWORDS.filter (fun kw => listInfixB kw.toList text)).length
  if rentCount ≥ saleCount then "rent" else "sale"

/-- Character class `[^，。！？\s]` of the community-name patterns. -/
def isCommChar (c : Char) : Bool :=
  !(c == '，' || c == '。' || c == '！' || c == '？' || pyIsSpace c)

/-- Greedy, backtracking match of `<class>+<sfx>` at one start position
(`m` counts down over candidate run lengths, longest first, which is the
greedy order of `[^…]+`); `s` is the text from the start position. -/
def classSuffixAtM (sfx s : List Char) : Nat → Option (List Char)
  | 0 => none
  | m + 1 =>
    if sfx.isPrefixOf (s.drop (m + 1)) then some (s.take (m + 1) ++ sfx)
    else classSuffixAtM sfx s m

/-- Regex `re.search(r'([^，。！？\s]+<sfx>)', text)`: leftmost start position,
then the longest class run followed by the literal suffix. -/
def searchClassSuffix (sfx : List Char) : List Char → Option (List Char)
  | [] => none
  | c :: t =>
    match (if isCommChar c then
             classSuffixAtM sfx (c :: t) ((c :: t).takeWhile isCommChar).length
           else none) with
    | some r => some r
    | none => searchClassSuffix sfx t

/-- Source `PropertyParsingFallback._extract_community_name`: the four suffix
patterns, tried in order. -/
def extractCommunityName (text : List Char) : Option String :=
  match searchClassSuffix "小区".toList text with
  | some r => some (String.mk r)
  | none =>
    match searchClassSuffix "花园".toList text with
    | some r => some (String.mk r)
    | none =>
      match searchClassSuffix "公寓".toList text with
      | some r => some (String.mk r)
      | none =>
        match searchClassSuffix "大厦".toList text with
        | some r => some (String.mk r)
        | none => none

/-- A segment of one of the fallback's fixed regular expressions:
a literal, or a nonempty greedy digit run `\d+`. -/
inductive RegexSeg where
  | lit (cs : List Char) : RegexSeg
  | digits : RegexSeg

/-- Match a segment sequence at the head of `s`, returning the matched
characters (every segment here is followed by a literal starting with a
non-digit, so greedy digit runs never need to backtrack). -/
def matchSegsAt : List RegexSeg → List Char → Option (List Char)
  | [], _ => some []
  | RegexSeg.lit cs :: segs, s =>
    if cs.isPrefixOf s then
      match matchSegsAt segs (s.drop cs.length) with
      | some m => some (cs ++ m)
      | none => none
    else none
  | RegexSeg.digits :: segs, s =>
    let ds := s.takeWhile Char.isDigit
    if ds.isEmpty then none
    else
      match matchSegsAt segs (s.drop ds.length) with
      | some m => some (ds ++ m)
      | none => none

/-- Regex `re.search` for a segment pattern: try each start position, leftmost
match wins. -/
def searchSegs (segs : List RegexSeg) : List Char → Option (List Char)
  | [] =>
    (match matchSegsAt segs [] with
     | some m => some m
     | none => none)
  | c :: t =>
    match matchSegsAt segs (c :: t) with
    | some m => some m
    | none => searchSegs segs t

/-- Source `PropertyParsingFallback._extract_floor_info`: patterns `(\d+楼)`,
`(\d+层)`, `(第\d+层)`, tried in order. -/
def extractFloorInfo (text : List Char) : Option String :=
  match searchSegs [RegexSeg.digits, RegexSeg.lit ['楼']] text with
  | some r => some (String.mk r)
  | none =>
    match searchSegs [RegexSeg.digits, RegexSeg.lit ['层']] text with
    | some r => some (String.mk r)
    | none =>
      match searchSegs [RegexSeg.lit ['第'], RegexSeg.digits, RegexSeg.lit ['层']] text with
      | some r => some (String.mk r)
      | none => none

/-- Parse `\d+(?:\.\d+)?` at the head of `s` (greedy), returning its value
as an exact rational together with the rest of the text. -/
def parseNumAt (s : List Char) : Option (ℚ × List Char) :=
  match s with
  | [] => none
  | c :: t =>
    if c.isDigit then
      let ds := (c :: t).takeWhile Char.isDigit
      let rest := t.dropWhile Char.isDigit
      if startsFrac rest then
        let fs := rest.tail.takeWhile Char.isDigit
        some ((digitsVal ds : ℚ) + fracVal fs, rest.tail.dropWhile Char.isDigit)
      else
        some ((digitsVal ds : ℚ), rest)
    else none

/-- Regex `re.search(r'(\d+(?:\.\d+)?)<sfx>')` for a choice of literal suffixes
(alternation tried in order at each position): the captured number's value.
Each suffix starts with a character that is neither a digit nor a dot, so
the greedy number parse never needs to backtrack. -/
def searchNumThenAny (sfxs : List (List Char)) : List Char → Option ℚ
  | [] => none
  | c :: t =>
    match parseNumAt (c :: t) with
    | some (q, rest) =>
      if sfxs.any (fun sfx => sfx.isPrefixOf rest) then some q
      else searchNumThenAny sfxs t
    | none => searchNumThenAny sfxs t

/-- Regex `re.search(r'<lit>[金]?(\d+(?:\.\d+)?)')` (with `optJin` selecting the
optional `[金]?`): the captured number's value.  If a `金` follows the
literal, the regex must consume it (dropping it would place `金` where a
digit is required), so the position fails unless digits follow. -/
def searchLitNum (lit : List Char) (optJin : Bool) : List Char → Option ℚ
  | [] => none
  | c :: t =>
    (match
      (if lit.isPrefixOf (c :: t) then
        let s1 := (c :: t).drop lit.length
        let s2 := match s1 with
          | g :: r => if optJin && g == '金' then r else s1
          | [] => s1
        match parseNumAt s2 with
        | some (q, _) => some q
        | none => none
      else none) with
    | some q => some q
    | none => searchLitNum lit optJin t)

/-- Source `PropertyParsingFallback._extract_price`: the four explicit price
patterns in order (`X万元`, `X元/月`, `月租[金]?X`, `租金X`); otherwise the
largest number occurring anywhere in the text; otherwise nothing. -/
def extractPrice (text : List Char) : Option ℚ :=
  match searchNumThenAny ["万元".toList] text with
  | some q => some q
  | none =>
    match searchNumThenAny ["元/月".toList] text with
    | some q => some q
    | none =>
      match searchLitNum "月租".toList true text with
      | some q => some q
      | none =>
        match searchLitNum "租金".toList false text with
        | some q => some q
        | none =>
          match scanNumbers text with
          | [] => none
          | l => some (listMaxQ l)

/-- Source `PropertyParsingFallback._extract_room_count`: patterns `(\d+室\d+厅)`,
`(\d+房\d+厅)`, `(\d+室\d+厅\d+卫)`, tried in order. -/
def extractRoomCount (text : List Char) : Option String :=
  match searchSegs [RegexSeg.digits, RegexSeg.lit ['室'], RegexSeg.digits, RegexSeg.lit ['厅']] text with
  | some r => some (String.mk r)
  | none =>
    match searchSegs [RegexSeg.digits, RegexSeg.lit ['房'], RegexSeg.digits, RegexSeg.lit ['厅']] text with
    | some r => some (String.mk r)
    | none =>
      match searchSegs [RegexSeg.digits, RegexSeg.lit ['室'], RegexSeg.digits, RegexSeg.lit ['厅'],
                        RegexSeg.digits, RegexSeg.lit ['卫']] text with
      | some r => some (String.mk r)
      | none => none

/-- Source `PropertyParsingFallback._extract_area`: patterns `(\d+(?:\.\d+)?)平[米方]`,
`(\d+(?:\.\d+)?)㎡`, `面积(\d+(?:\.\d+)?)`, tried in order. -/
def extractArea (text : List Char) : Option ℚ :=
  match searchNumThenAny ["平米".toList, "平方".toList] text with
  | some q => some q
  | none =>
    match searchNumThenAny ["㎡".toList] text with
    | some q => some q
    | none =>
      match searchLitNum "面积".toList false text with
      | some q => some q
      | none => none

/-- Source `PropertyParsingFallback._extract_decoration`: first decoration keyword
found as a substring. -/
def extractDecoration (text : List Char) : Option String :=
  (["精装修", "简装", "毛坯", "豪装", "中装"].find?
    (fun kw => listInfixB kw.toList text))

/-- The record built by `PropertyParsingFallback.create_fallback_result`.
The dict's `contact_phone` entry is omitted: no caller in the sources reads
it (`PropertyParsingResult` has no such field), so it is dead in every
composition this file reasons about.  The `except` branch of the source is
unreachable for the pure field extractors modelled here. -/
structure FallbackData where
  property_type : String
  community_name : Option String
  street_address : Option String
  floor_info : Option String
  price : Option ℚ
  room_count : Option String
  area : Option ℚ
  furniture_appliances : Option String
  decoration_status : Option String
  confidence : ℚ

/-- Source `PropertyParsingFallback.create_fallback_result`. -/
def createFallbackResult (text : List Char) : FallbackData :=
  ⟨guessPropertyType text,
   extractCommunityName text,
   none,
   extractFloorInfo text,
   extractPrice text,
   extractRoomCount text,
   extractArea text,
   none,
   extractDecoration text,
   0.3⟩

/-! ### `llm_service.py` — `parse_property_text` and helpers

The chat-model endpoint and `json.loads` are external collaborators; they
enter as parameters (`llmResponse : Option (List Char)`, with `none`
covering a missing client, transport error or timeout, and
`loads : List Char → Option Json`, with `none` for a JSON decode error).
pydantic validation of `PropertyParsingResult(...)` is modelled strictly:
a field whose JSON value has the wrong kind fails construction, which the
source's outer handler turns into `None`; pydantic's lenient
string/number coercions are not modelled (no claim depends on them). -/

/-- Source `llm_service.PropertyParsingResult` (pydantic model). -/
structure PropertyParsingResult where
  property_type : String
  community_name : Option String
  street_address : Option String
  floor_info : Option String
  price : Option ℚ
  room_count : Option String
  area : Option ℚ
  furniture_appliances : Option String
  decoration_status : Option String
  confidence : ℚ
  validation_warnings : List String
  is_fallback : Bool

/-- Accessor `parsed_data.get(key, dflt)` for a required pydantic `str` field. -/
def pydStrReq (kvs : List (String × Json)) (key : String) (dflt : String) : Option String :=
  match lookupAssoc kvs key with
  | Option.none => some dflt
  | some (Json.str s) => some s
  | some _ => Option.none

/-- Accessor `parsed_data.get(key)` for an `Optional[str]` pydantic field. -/
def pydStrOpt (kvs : List (String × Json)) (key : String) : Option (Option String) :=
  match lookupAssoc kvs key with
  | Option.none => some Option.none
  | some Json.null => some Option.none
  | some (Json.str s) => some (some s)
  | some _ => Option.none

/-- Accessor `parsed_data.get(key)` for an `Optional[float]` pydantic field. -/
def pydNumOpt (kvs : List (String × Json)) (key : String) : Option (Option ℚ) :=
  match lookupAssoc kvs key with
  | Option.none => some Option.none
  | some Json.null => some Option.none
  | some (Json.num q) => some (some q)
  | some _ => Option.none

/-- Accessor `parsed_data.get(key, dflt)` for a required pydantic `float` field. -/
def pydNumReq (kvs : List (String × Json)) (key : String) (dflt : ℚ) : Option ℚ :=
  match lookupAssoc kvs key with
  | Option.none => some dflt
  | some (Json.num q) => some q
  | some _ => Option.none

/-- The `PropertyParsingResult(...)` construction inside
`_try_llm_parsing` (lines 171–183 of `llm_service.py`): field defaults
`property_type="rent"` and `confidence=0.8`, `validation_warnings=[]`,
`is_fallback=False`; any pydantic validation failure is caught by the
outer handler, i.e. yields `none`. -/
def mkParsingResult (kvs : List (String × Json)) : Option PropertyParsingResult := do
  let pt ← pydStrReq kvs "property_type" "rent"
  let cn ← pydStrOpt kvs "community_name"
  let sa ← pydStrOpt kvs "street_address"
  let fi ← pydStrOpt kvs "floor_info"
  let pr ← pydNumOpt kvs "price"
  let rc ← pydStrOpt kvs "room_count"
  let ar ← pydNumOpt kvs "area"
  let fa ← pydStrOpt kvs "furniture_appliances"
  let ds ← pydStrOpt kvs "decoration_status"
  let cf ← pydNumReq kvs "confidence" 0.8
  some ⟨pt, cn, sa, fi, pr, rc, ar, fa, ds, cf, [], false⟩

/-- Source `LLMService._try_llm_parsing`: strip the response, peel a markdown
JSON fence if present, parse, and construct the pydantic result; every
failure (no client, transport error, decode error, non-dict JSON,
validation error) yields `none`. -/
def tryLlmParsing (loads : List Char → Option Json)
    (llmResponse : Option (List Char)) : Option PropertyParsingResult :=
  match llmResponse with
  | Option.none => Option.none
  | some raw =>
    let content0 := pyStrip raw
    let content1 := if fenceJson.isPrefixOf content0 then content0.drop 7 else content0
    let content2 :=
      if fenceEnd.isSuffixOf content1 then content1.take (content1.length - 3) else content1
    let content := pyStrip content2
    match loads content with
    | some (Json.obj kvs) => mkParsingResult kvs
    | _ => Option.none

/-- Source `LLMService._validate_parsing_result`: run the type check and the
price-range check; each failed check appends its warning and suggestions
and sets `confidence := max 0.1 (confidence − penalty)` (penalties 0.3 and
0.2).  The source's own exception handler is unreachable for these pure
checks. -/
def validateParsingResult (text : List Char) (result : PropertyParsingResult) :
    PropertyParsingResult :=
  let typeValidation := validatePropertyType text result.property_type
  let warnings1 :=
    if typeValidation.is_valid then []
    else ("类型验证: " ++ typeValidation.message) :: typeValidation.suggestions
  let conf1 :=
    if typeValidation.is_valid then result.confidence
    else max 0.1 (result.confidence - 0.3)
  let priceValidation := validatePriceRange result.property_type result.price
  let warnings2 :=
    if priceValidation.is_valid then warnings1
    else warnings1 ++ ("价格验证: " ++ priceValidation.message) :: priceValidation.suggestions
  let conf2 :=
    if priceValidation.is_valid then conf1
    else max 0.1 (conf1 - 0.2)
  ⟨result.property_type, result.community_name, result.street_address,
   result.floor_info, result.price, result.room_count, result.area,
   result.furniture_appliances, result.decoration_status,
   conf2, warnings2, result.is_fallback⟩

/-- Source `LLMService._create_fallback_result`: wrap the rule-based fallback
record into a `PropertyParsingResult` with the fixed fallback warning and
`is_fallback = true`.  (The record always carries every consumed key, so
the `.get` defaults and the construction-failure handler are dead.) -/
def createFallbackParsingResult (text : List Char) : PropertyParsingResult :=
  let d := createFallbackResult text
  ⟨d.property_type, d.community_name, d.street_address, d.floor_info,
   d.price, d.room_count, d.area, d.furniture_appliances,
   d.decoration_status, d.confidence,
   ["使用了降级处理机制，建议手动检查结果"], true⟩

/-- Source `LLMService.parse_property_text`: model parse, then validation; on any
model-path failure, the rule-based fallback. -/
def parsePropertyText (loads : List Char → Option Json)
    (llmResponse : Option (List Char)) (text : List Char) : PropertyParsingResult :=
  match tryLlmParsing loads llmResponse with
  | Option.none => createFallbackParsingResult text
  | some r => validateParsingResult text r

/-! ### `chat_service.py` — intent extraction, SQL gate, executor,
confirmation dispatch -/

/-- Source `ChatService._extract_intent_from_response`: first fenced JSON block,
parsed by `loads`; accepted only when the discriminator `intent_type` is
`property_query` or `property_image_query`, in which case
`original_query` is stored into the dict; every other case (no block,
decode failure, non-dict JSON, missing or mismatched discriminator) is
`none`. -/
def extractIntentFromResponse (loads : List Char → Option Json)
    (response : List Char) (originalQuery : String) : Option Json :=
  match firstJsonBlock response with
  | Option.none => Option.none
  | some block =>
    match loads block with
    | some (Json.obj kvs) =>
      match lookupAssoc kvs "intent_type" with
      | some (Json.str s) =>
        if s = "property_query" ∨ s = "property_image_query" then
          some (Json.obj (setAssoc kvs "original_query" (Json.str originalQuery)))
        else Option.none
      | _ => Option.none
    | _ => Option.none

/-- The trimmed-and-uppercased prefix test
`sql.strip().upper().startswith("SELECT")` used by both the generator's
safety gate and the executor's re-check. -/
def startsWithSelect (sql : List Char) : Bool :=
  "SELECT".toList.isPrefixOf (pyUpper (pyStrip sql))

/-- Source `ChatService._generate_sql_query` after the model call: take the first
fenced JSON block of the model's response, parse it, and return the parsed
dict only if its `sql` value passes the `startswith("SELECT")` gate.
`llmResponse = none` covers the missing client and every API exception; a
missing `sql` key defaults to `""` (which fails the gate), and a non-string
`sql` raises in `.strip()`, which the handler turns into `none`.  No repair
or retry exists: every non-passing outcome is `none`. -/
def generateSqlQuery (loads : List Char → Option Json)
    (llmResponse : Option (List Char)) : Option Json :=
  match llmResponse with
  | Option.none => Option.none
  | some respText =>
    match firstJsonBlock respText with
    | Option.none => Option.none
    | some block =>
      match loads block with
      | some (Json.obj kvs) =>
        match lookupAssoc kvs "sql" with
        | some (Json.str s) =>
          if startsWithSelect s.toList then some (Json.obj kvs) else Option.none
        | Option.none => Option.none
        | some _ => Option.none
      | _ => Option.none

/-- A scalar held in a result row, by its Python runtime type.  The
constructors record which duck-typing checks of the executor apply:
`isoformat` exists exactly on the temporal values, `__float__` exists on
`Decimal`, `int`, `float` and `bool`. -/
inductive DbValue where
  | vDateTime (iso : String) : DbValue
  | vDecimal (q : ℚ) : DbValue
  | vInt (n : ℤ) : DbValue
  | vFloat (q : ℚ) : DbValue
  | vBool (b : Bool) : DbValue
  | vStr (s : String) : DbValue
  | vNone : DbValue
deriving DecidableEq

/-- Check `hasattr(value, 'isoformat')`. -/
def hasIsoformat : DbValue → Bool
  | DbValue.vDateTime _ => true
  | _ => false

/-- Call `value.isoformat()`. -/
def isoStringOf : DbValue → String
  | DbValue.vDateTime s => s
  | _ => ""

/-- Check `hasattr(value, '__float__')`: true for `Decimal`, and also for plain
`int`, `float` and `bool` (a `bool` is an `int` subclass in Python). -/
def hasFloatMethod : DbValue → Bool
  | DbValue.vDecimal _ => true
  | DbValue.vInt _ => true
  | DbValue.vFloat _ => true
  | DbValue.vBool _ => true
  | _ => false

/-- Call `float(value)`. -/
def floatOfValue : DbValue → ℚ
  | DbValue.vDecimal q => q
  | DbValue.vInt n => (n : ℚ)
  | DbValue.vFloat q => q
  | DbValue.vBool b => if b then 1 else 0
  | _ => 0

/-- The per-value normalization of `_execute_sql_query` (lines 416–421):
`isoformat` first, then `__float__`, else pass through. -/
def convertValue (v : DbValue) : DbValue :=
  if hasIsoformat v then DbValue.vStr (isoStringOf v)
  else if hasFloatMethod v then DbValue.vFloat (floatOfValue v)
  else v

/-- One result row as a dict: `row_dict[column] = value` over
`enumerate(columns)`. -/
def buildRowDict (cols : List String) (row : List DbValue) : List (String × DbValue) :=
  (cols.zip row).foldl (fun d cv => setAssoc d cv.1 (convertValue cv.2)) []

/-- All rows as dicts; `row[i]` raises `IndexError` when a row is shorter
than the column list, which the executor's handler turns into `[]`. -/
def rowsToDicts (cols : List String) (rows : List (List DbValue)) :
    Option (List (List (String × DbValue))) :=
  if rows.all (fun r => cols.length ≤ r.length) then
    some (rows.map (buildRowDict cols))
  else Option.none

/-- Source `ChatService._execute_sql_query`.  The relational store is abstracted
by `dbOutcome`: `none` is any store-level error (malformed SQL, unknown
column, connection failure), `some (cols, rows)` a successful execution.
Bind parameters are passed through to the store unchanged and play no role
here.  A missing or non-string `sql` raises in `.strip()`; every caught
exception yields `[]`; success normalizes each value and truncates to the
first 20 rows. -/
def executeSqlQuery (sqlData : Json)
    (dbOutcome : Option (List String × List (List DbValue))) :
    List (List (String × DbValue)) :=
  match sqlData with
  | Json.obj kvs =>
    match lookupAssoc kvs "sql" with
    | some (Json.str s) =>
      if startsWithSelect s.toList then
        match dbOutcome with
        | Option.none => []
        | some (cols, rows) =>
          match rowsToDicts cols rows with
          | some rs => rs.take 20
          | Option.none => []
      else []
    | _ => []
  | _ => []

/-- Source `confirm_keywords` of `stream_chat_with_confirmation`. -/
def CONFIRM_KEYWORDS : List String :=
  ["确认", "开始查询", "是的", "好的", "查询", "搜索", "找找"]

/-- The two outcomes of `stream_chat_with_confirmation`.  On an
affirmative keyword match the source (chat_service.py:201) executes
`async for chunk in self.process_property_query(intent_data, original_query)`
— but `process_property_query` (line 531) is an `async def` that returns a
dict, i.e. calling it yields a coroutine, not an async generator, so the
`async for` raises `TypeError` (no `__aiter__`) before any line of the
coroutine body runs, and `stream_chat_with_confirmation` has no handler:
the exception escapes and **no pipeline step executes**.  Otherwise the
pending intent is discarded and the message is handled as a fresh ordinary
chat turn (`stream_chat_text(message, history)`, an actual async
generator, which never sees the intent). -/
inductive ConfirmBranch where
  | typeErrorRaised : ConfirmBranch
  | freshChat : ConfirmBranch

/-- The branch decision of `ChatService.stream_chat_with_confirmation`:
lowercase and strip the message, then test each affirmative keyword for
substring containment.  The affirmative branch reads
`intent_data.get("original_query", ...)` and builds the
`process_property_query` coroutine (binding `intentData`), but the
`async for` then raises an uncaught `TypeError`, modelled by
`ConfirmBranch.typeErrorRaised`. -/
def streamChatWithConfirmation (message : List Char) (intentData : Json) : ConfirmBranch :=
  let userInput := pyStrip (pyLower message)
  if CONFIRM_KEYWORDS.any (fun kw => listInfixB kw.toList userInput) then
    ConfirmBranch.typeErrorRaised
  else
    ConfirmBranch.freshChat

/-- Following the claim's wording (to be compared with the source-derived
gate `startsWithSelect`): the first whitespace-delimited token of the
trimmed statement, case-folded, is exactly `SELECT`. -/
def specFirstTokenIsSelect (sql : List Char) : Bool :=
  pyUpper ((pyStrip sql).takeWhile (fun c => !(pyIsSpace c))) = "SELECT".toList

/-! ### Demonstration inputs used by concrete witnesses and counterexamples -/

/-- A model-parsed rent listing with an out-of-range price (99 is below the
expected monthly-rent minimum of 100) and confidence 1. -/
def demoRentResult : PropertyParsingResult :=
  ⟨"rent", Option.none, Option.none, Option.none, some 99, Option.none,
   Option.none, Option.none, Option.none, 1, [], false⟩

/-- A model-parsed rent listing whose model-supplied confidence is 0 and
whose price is absent. -/
def demoZeroConfResult : PropertyParsingResult :=
  ⟨"rent", Option.none, Option.none, Option.none, Option.none, Option.none,
   Option.none, Option.none, Option.none, 0, [], false⟩

/-! ### Claims -/

/-- Claim C7, counterexample.  On the empty text both keyword counts are 0
(a tie), and the fallback's guess is `"rent"`, not `"sale"` as the claim
states: `rent_count >= sale_count` sends ties to the rent branch. -/
theorem guess_property_type_tie_cex :
    (RENT_KEYWORDS.filter (fun kw => listInfixB kw.toList [])).length =
      (SALE_KEYWORDS.filter (fun kw => listInfixB kw.toList [])).length ∧
    guessPropertyType [] = "rent" ∧ guessPropertyType [] ≠ "sale" := by
  refine ⟨by decide, by decide, by decide⟩

/-- Claim C7, amended.  In the fallback extractor the property type is
guessed by comparing the count of rent keywords found in the text against
the count of sale keywords; for every text where the two counts are equal,
the guessed type is **rent** (the source's `>=` comparison sends ties to
rent, not sale). -/
theorem guess_property_type_tie_rent (text : List Char)
    (h : (RENT_KEYWORDS.filter (fun kw => listInfixB kw.toList text)).length =
         (SALE_KEYWORDS.filter (fun kw => listInfixB kw.toList text)).length) :
    guessPropertyType text = "rent" := by
  unfold guessPropertyType
  rw [if_pos (Nat.le_of_eq h.symm)]

/-- Claim C7, witness for the amended theorem at the empty text. -/
theorem guess_property_type_tie_rent_witness :
    (RENT_KEYWORDS.filter (fun kw => listInfixB kw.toList [])).length =
      (SALE_KEYWORDS.filter (fun kw => listInfixB kw.toList [])).length ∧
    guessPropertyType [] = "rent" :=
  ⟨by decide, guess_property_type_tie_rent [] (by decide)⟩

/-- Claim C6, counterexample.  A present, out-of-range rent price (99, below
the expected minimum 100) does **not** produce a validation warning and
does **not** reduce confidence by 0.2: `validate_price_range` returns
`is_valid=True` for out-of-range prices (source comment `改为True`), so
the caller's penalty branch never fires — confidence and warnings are
unchanged on a text whose type check passes. -/
theorem price_out_of_range_no_penalty_cex :
    demoRentResult.price = some 99 ∧ (99 : ℚ) < RENT_PRICE_RANGE.1 ∧
    (validateParsingResult "出租".toList demoRentResult).confidence =
      demoRentResult.confidence ∧
    (validateParsingResult "出租".toList demoRentResult).validation_warnings = [] := by
  refine ⟨rfl, by norm_num [RENT_PRICE_RANGE], ?_, ?_⟩ <;> rfl

/-- Claim C6, amended.  For every property type and price the price-range
check passes (`is_valid = true`): an out-of-range price only attaches
advisory suggestion text inside the returned `ValidationResult` and never
blocks the result; consequently the caller's price branch never appends a
warning and never subtracts 0.2 — the post-validation confidence is
entirely determined by the type check. -/
theorem price_range_never_fails :
    (∀ (pt : String) (p : Option ℚ), (validatePriceRange pt p).is_valid = true) ∧
    (∀ p : ℚ, (p < RENT_PRICE_RANGE.1 ∨ RENT_PRICE_RANGE.2 < p) →
      (validatePriceRange "rent" (some p)).suggestions ≠ []) ∧
    (∀ p : ℚ, (p < SALE_PRICE_RANGE.1 ∨ SALE_PRICE_RANGE.2 < p) →
      (validatePriceRange "sale" (some p)).suggestions ≠ []) ∧
    (∀ (text : List Char) (r : PropertyParsingResult),
      (validateParsingResult text r).confidence =
        if (validatePropertyType text r.property_type).is_valid then r.confidence
        else max 0.1 (r.confidence - 0.3)) := by
  have hvalid : ∀ (pt : String) (p : Option ℚ), (validatePriceRange pt p).is_valid = true := by
    intro pt p
    rcases p with _ | q
    · rfl
    · simp only [validatePriceRange]
      split_ifs <;> rfl
  refine ⟨hvalid, ?_, ?_, ?_⟩
  · intro p hp
    have hcond : ¬(RENT_PRICE_RANGE.1 ≤ p ∧ p ≤ RENT_PRICE_RANGE.2) := by
      rintro ⟨h1, h2⟩
      rcases hp with h | h
      · exact absurd h1 (not_le.mpr h)
      · exact absurd h2 (not_le.mpr h)
    simp [validatePriceRange, hcond]
  · intro p hp
    have hcond : ¬(SALE_PRICE_RANGE.1 ≤ p ∧ p ≤ SALE_PRICE_RANGE.2) := by
      rintro ⟨h1, h2⟩
      rcases hp with h | h
      · exact absurd h1 (not_le.mpr h)
      · exact absurd h2 (not_le.mpr h)
    simp [validatePriceRange, hcond]
  · intro text r
    simp only [validateParsingResult, hvalid r.property_type r.price]
    simp

/-- Claim C6, witness for the amended theorem at the concrete out-of-range
rent price 99. -/
theorem price_range_never_fails_witness :
    (validatePriceRange "rent" (some 99)).is_valid = true ∧
    (99 : ℚ) < RENT_PRICE_RANGE.1 ∧
    (validatePriceRange "rent" (some 99)).suggestions ≠ [] :=
  ⟨price_range_never_fails.1 "rent" (some 99),
   by norm_num [RENT_PRICE_RANGE],
   price_range_never_fails.2.1 99 (Or.inl (by norm_num [RENT_PRICE_RANGE]))⟩

/-- Claim C5, counterexample.  With incoming confidence 0 and a failed type
check (the text is a sale listing but the parsed type is rent), the update
`max(0.1, 0 − 0.3)` **raises** the confidence to 0.1 > 0, refuting
"every failed check only ever reduces the confidence value" and
"post-validation confidence is at most the incoming confidence". -/
theorem validate_parsing_confidence_raised_cex :
    demoZeroConfResult.confidence = 0 ∧
    (validateParsingResult "出售 总价 500000".toList demoZeroConfResult).confidence = 0.1 ∧
    ¬((validateParsingResult "出售 总价 500000".toList demoZeroConfResult).confidence
        ≤ demoZeroConfResult.confidence) := by
  have htype : (validatePropertyType "出售 总价 500000".toList "rent").is_valid = false := by
    decide
  have hconf :
      (validateParsingResult "出售 总价 500000".toList demoZeroConfResult).confidence = 0.1 := by
    have hprice : (validatePriceRange "rent" Option.none).is_valid = true := rfl
    show (validateParsingResult "出售 总价 500000".toList demoZeroConfResult).confidence = 0.1
    unfold validateParsingResult
    simp only [demoZeroConfResult, htype, hprice, Bool.false_eq_true, if_false, if_true]
    norm_num
  refine ⟨rfl, hconf, ?_⟩
  rw [hconf]
  show ¬((0.1 : ℚ) ≤ demoZeroConfResult.confidence)
  norm_num [demoZeroConfResult]

/-- Claim C5, amended.  Each failed validation check sets the confidence to
`max 0.1 (confidence − penalty)`; therefore the post-validation confidence
never exceeds the incoming confidence **provided the incoming confidence is
at least 0.1** (the floor value).  An incoming confidence below the floor
can be raised up to 0.1 by a failed check. -/
theorem validate_parsing_confidence_monotone (text : List Char)
    (r : PropertyParsingResult) (h : (0.1 : ℚ) ≤ r.confidence) :
    (validateParsingResult text r).confidence ≤ r.confidence := by
  have h3 : max (0.1 : ℚ) (r.confidence - 0.3) ≤ r.confidence := max_le h (by linarith)
  simp only [validateParsingResult]
  split_ifs <;>
    first
      | exact le_refl _
      | exact max_le h (by linarith)

/-- Claim C5, witness for the amended theorem: incoming confidence 1 (≥ 0.1)
on the empty text. -/
theorem validate_parsing_confidence_monotone_witness :
    (0.1 : ℚ) ≤ demoRentResult.confidence ∧
    (validateParsingResult [] demoRentResult).confidence ≤ demoRentResult.confidence :=
  ⟨by norm_num [demoRentResult],
   validate_parsing_confidence_monotone [] demoRentResult (by norm_num [demoRentResult])⟩

/-- Claim C3.  The executor returns at most 20 rows, whatever the SQL dict,
and whatever the store does (error, or any number of result rows). -/
theorem execute_sql_query_row_bound (sqlData : Json)
    (dbOutcome : Option (List String × List (List DbValue))) :
    (executeSqlQuery sqlData dbOutcome).length ≤ 20 := by
  unfold executeSqlQuery
  repeat' split
  all_goals simp [List.length_take]

/-- Claim C4.  On a store-level execution error the executor returns the
empty sequence (no exception propagates — the embedding is total), and
this outcome coincides with that of a successful execution returning zero
rows: the caller cannot distinguish the two. -/
theorem execute_sql_query_error_as_empty (sqlData : Json) :
    executeSqlQuery sqlData Option.none = [] ∧
    ∀ cols : List String,
      executeSqlQuery sqlData (some (cols, [])) = executeSqlQuery sqlData Option.none := by
  constructor
  · unfold executeSqlQuery
    repeat' split
    all_goals first
      | rfl
      | simp_all
  · intro cols
    unfold executeSqlQuery
    repeat' split
    all_goals first
      | rfl
      | simp_all [rowsToDicts]

/-- The SQL dict used by concrete executor and generator examples. -/
def demoSqlData : Json :=
  Json.obj [("sql", Json.str "SELECT * FROM properties LIMIT 20"),
            ("params", Json.obj []),
            ("description", Json.str "全部房源")]

/-- Claim C9, counterexample.  A plain integer value is **not** passed
through unchanged: `hasattr(5, '__float__')` holds, so the executor turns
the `int` 5 into the `float` 5.0 (and a boolean into 1.0/0.0 likewise),
refuting "passes every other value (including plain integers, strings,
and booleans) through unchanged". -/
theorem convert_value_int_changed_cex :
    executeSqlQuery demoSqlData (some (["price"], [[DbValue.vInt 5]])) =
      [[("price", DbValue.vFloat 5)]] ∧
    DbValue.vFloat 5 ≠ DbValue.vInt 5 ∧
    convertValue (DbValue.vBool true) = DbValue.vFloat 1 := by
  refine ⟨by rfl, by decide, by rfl⟩

/-- Claim C9, amended.  The executor's per-value conversion sends temporal
values to their ISO-8601 strings and **every value carrying a float
conversion** — fixed-point decimals, but also plain integers, floats and
booleans — to floating point; only values with neither an `isoformat`
method nor `__float__` (strings, null) pass through unchanged. -/
theorem execute_sql_value_conversion :
    (∀ s, convertValue (DbValue.vDateTime s) = DbValue.vStr s) ∧
    (∀ q, convertValue (DbValue.vDecimal q) = DbValue.vFloat q) ∧
    (∀ n : ℤ, convertValue (DbValue.vInt n) = DbValue.vFloat (n : ℚ)) ∧
    (∀ q, convertValue (DbValue.vFloat q) = DbValue.vFloat q) ∧
    (∀ b, convertValue (DbValue.vBool b) = DbValue.vFloat (if b then 1 else 0)) ∧
    (∀ s, convertValue (DbValue.vStr s) = DbValue.vStr s) ∧
    convertValue DbValue.vNone = DbValue.vNone :=
  ⟨fun _ => rfl, fun _ => rfl, fun _ => rfl, fun _ => rfl, fun _ => rfl,
   fun _ => rfl, rfl⟩

/-- The Boolean substring scan agrees with the mathematical "occurs
somewhere inside" relation. -/
theorem listInfixB_iff (p : List Char) (s : List Char) :
    listInfixB p s = true ↔ p <:+: s := by
  induction s with
  | nil =>
    simp only [listInfixB, List.isEmpty_iff, List.infix_nil]
  | cons c t ih =>
    simp only [listInfixB, Bool.or_eq_true, List.isPrefixOf_iff_prefix, ih,
      List.infix_cons_iff]

/-- Claim C10, code bug.  The affirmative keyword gate is exactly as the
claim describes — lowercased, stripped message, substring containment of
one of the seven fixed keywords — but on a match the code does **not**
run the property-query pipeline: `async for` over the **coroutine**
returned by the `async def process_property_query` raises an uncaught
`TypeError` before any pipeline step, while the spec (§4.6) and the
parallel correct call `await self.process_property_query(...)` at
chat_service.py:113 show running the pipeline is the intent.  The theorem
characterises both branches of the faithful model — a keyword match leads
to the uncaught `TypeError`, anything else to a fresh intent-free chat
turn — and evaluates the failing input `确认`. -/
theorem confirmation_keyword_type_error :
    (∀ (message : List Char) (intentData : Json),
      (streamChatWithConfirmation message intentData = ConfirmBranch.typeErrorRaised ↔
        ∃ kw ∈ CONFIRM_KEYWORDS, kw.toList <:+: pyStrip (pyLower message)) ∧
      (streamChatWithConfirmation message intentData = ConfirmBranch.freshChat ↔
        ¬∃ kw ∈ CONFIRM_KEYWORDS, kw.toList <:+: pyStrip (pyLower message))) ∧
    streamChatWithConfirmation "确认".toList (Json.obj []) =
      ConfirmBranch.typeErrorRaised := by
  refine ⟨?_, rfl⟩
  intro message intentData
  by_cases h : CONFIRM_KEYWORDS.any (fun kw => listInfixB kw.toList (pyStrip (pyLower message))) = true
  · have hex : ∃ kw ∈ CONFIRM_KEYWORDS, kw.toList <:+: pyStrip (pyLower message) := by
      rcases List.any_eq_true.mp h with ⟨kw, hmem, hkw⟩
      exact ⟨kw, hmem, (listInfixB_iff _ _).mp hkw⟩
    constructor
    · simp [streamChatWithConfirmation, h, hex, listInfixB_iff]
    · simp [streamChatWithConfirmation, h, hex, listInfixB_iff]
  · have hex : ¬∃ kw ∈ CONFIRM_KEYWORDS, kw.toList <:+: pyStrip (pyLower message) := by
      rintro ⟨kw, hmem, hinf⟩
      exact h (List.any_eq_true.mpr ⟨kw, hmem, (listInfixB_iff _ _).mpr hinf⟩)
    constructor
    · simp [streamChatWithConfirmation, h, hex, listInfixB_iff]
    · simp [streamChatWithConfirmation, h, hex, listInfixB_iff]

/-- Claim C8.  Intent extraction returns a structure **exactly when** the
first fenced JSON block exists, parses (to a JSON object — the only shape
a `\x7b...\x7d` block can parse to), and carries an `intent_type` equal to
`property_query` or `property_image_query`; in every other case (no block,
parse failure, non-object, missing or mismatched discriminator) it returns
`none`, and being a total function it never throws.  Only the first block
ever enters the decision. -/
theorem extract_intent_iff_first_block (loads : List Char → Option Json)
    (response : List Char) (originalQuery : String) :
    (extractIntentFromResponse loads response originalQuery).isSome = true ↔
    ∃ block kvs s, firstJsonBlock response = some block ∧
      loads block = some (Json.obj kvs) ∧
      lookupAssoc kvs "intent_type" = some (Json.str s) ∧
      (s = "property_query" ∨ s = "property_image_query") := by
  constructor
  · intro h
    rcases hfb : firstJsonBlock response with _ | block
    · simp [extractIntentFromResponse, hfb] at h
    · simp only [extractIntentFromResponse, hfb] at h
      rcases hl : loads block with _ | j
      · simp [hl] at h
      · simp only [hl] at h
        cases j with
        | obj kvs =>
          rcases hlk : lookupAssoc kvs "intent_type" with _ | v
          · simp [hlk] at h
          · simp only [hlk] at h
            cases v with
            | str s =>
              by_cases hs : s = "property_query" ∨ s = "property_image_query"
              · exact ⟨block, kvs, s, rfl, hl, hlk, hs⟩
              · simp [hs] at h
            | null => simp at h
            | bool b => simp at h
            | num q => simp at h
            | arr elems => simp at h
            | obj entries => simp at h
        | null => simp at h
        | bool b => simp at h
        | num q => simp at h
        | str s => simp at h
        | arr elems => simp at h
  · rintro ⟨block, kvs, s, h1, h2, h3, h4⟩
    simp only [extractIntentFromResponse, h1, h2, h3]
    rw [if_pos h4]
    rfl

/-- Claim C1, amended.  Whenever the generator returns a query dict,
that dict's `sql` value is a string whose trimmed, uppercased form has
`SELECT` as a **prefix** (the source gate is
`sql.strip().upper().startswith("SELECT")`, a six-character prefix test,
not a first-token test); every non-passing outcome — transport failure, no
fenced block, parse failure, missing or non-string `sql`, wrong prefix —
is `none`, with no repair attempt. -/
theorem generate_sql_requires_select_prefix (loads : List Char → Option Json)
    (resp : Option (List Char)) (j : Json)
    (h : generateSqlQuery loads resp = some j) :
    ∃ kvs s, j = Json.obj kvs ∧ lookupAssoc kvs "sql" = some (Json.str s) ∧
      startsWithSelect s.toList = true := by
  rcases resp with _ | respText
  · simp [generateSqlQuery] at h
  · rcases hfb : firstJsonBlock respText with _ | block
    · simp [generateSqlQuery, hfb] at h
    · simp only [generateSqlQuery, hfb] at h
      rcases hl : loads block with _ | jj
      · simp [hl] at h
      · simp only [hl] at h
        cases jj with
        | obj kvs =>
          rcases hlk : lookupAssoc kvs "sql" with _ | v
          · simp [hlk] at h
          · simp only [hlk] at h
            cases v with
            | str s =>
              by_cases hsel : startsWithSelect s.toList = true
              · simp only [hsel, if_true] at h
                exact ⟨kvs, s, (Option.some.inj h).symm, hlk, hsel⟩
              · simp at h
                exact absurd h.1 hsel
            | null => simp at h
            | bool b => simp at h
            | num q => simp at h
            | arr elems => simp at h
            | obj entries => simp at h
        | null => simp at h
        | bool b => simp at h
        | num q => simp at h
        | str s => simp at h
        | arr elems => simp at h

/-- The fenced block of a model response whose `sql` is a clean SELECT. -/
def blockGood : List Char :=
  openBrace :: "\"sql\": \"SELECT * FROM properties LIMIT 20\"".toList ++ [closeBrace]

/-- A model response embedding `blockGood` in a ` ```json ` fence. -/
def respGood : List Char := fenceJson ++ '\n' :: blockGood ++ '\n' :: fenceEnd

/-- A `json.loads` behaviour for `blockGood`. -/
def loadsGood : List Char → Option Json :=
  fun s => if s = blockGood then some demoSqlData else Option.none

/-- Claim C1, witness for the amended theorem at a concrete passing
generation. -/
theorem generate_sql_requires_select_prefix_witness :
    generateSqlQuery loadsGood (some respGood) = some demoSqlData ∧
    ∃ kvs s, demoSqlData = Json.obj kvs ∧ lookupAssoc kvs "sql" = some (Json.str s) ∧
      startsWithSelect s.toList = true :=
  ⟨rfl, generate_sql_requires_select_prefix loadsGood (some respGood) demoSqlData rfl⟩

/-- The fenced block of a model response whose statement starts with the
token `SELECTED`. -/
def blockSelected : List Char :=
  openBrace :: "\"sql\": \"SELECTED 1 FROM properties\"".toList ++ [closeBrace]

/-- A model response embedding `blockSelected` in a ` ```json ` fence. -/
def respSelected : List Char := fenceJson ++ '\n' :: blockSelected ++ '\n' :: fenceEnd

/-- The parsed dict for `blockSelected`. -/
def sqlSelectedData : Json := Json.obj [("sql", Json.str "SELECTED 1 FROM properties")]

/-- A `json.loads` behaviour for `blockSelected`. -/
def loadsSelected : List Char → Option Json :=
  fun s => if s = blockSelected then some sqlSelectedData else Option.none

/-- Claim C1, counterexample.  The statement `SELECTED 1 FROM properties`
has first token `SELECTED`, not `SELECT`, yet the generator **returns it**
instead of null: the gate is a `startswith` prefix test, so the claim
"returns null whenever the first token is not exactly SELECT" is false. -/
theorem generate_sql_first_token_cex :
    specFirstTokenIsSelect "SELECTED 1 FROM properties".toList = false ∧
    generateSqlQuery loadsSelected (some respSelected) = some sqlSelectedData := by
  refine ⟨by decide, by rfl⟩

/-- The bare (unfenced) JSON object of a model parse whose self-reported
confidence is 5. -/
def blockConfFive : List Char :=
  openBrace :: "\"property_type\": \"rent\", \"confidence\": 5".toList ++ [closeBrace]

/-- A `json.loads` behaviour for `blockConfFive`. -/
def loadsConfFive : List Char → Option Json :=
  fun s =>
    if s = blockConfFive then
      some (Json.obj [("property_type", Json.str "rent"), ("confidence", Json.num 5)])
    else Option.none

/-- Claim C2, code bug.  `parse_property_text` trusts the model-supplied
confidence without clamping: on a successful parse that reports
`confidence: 5` for a rent text whose validations pass, the returned
listing carries confidence 5 — outside the documented range [0.0, 1.0]
(the pydantic field itself is described as `解析置信度(0-1)`).  The
"never raises" half of the claim holds — the embedded function is total —
but the range invariant fails. -/
theorem parse_property_text_confidence_out_of_range :
    (parsePropertyText loadsConfFive (some blockConfFive) "出租月租2800元".toList).confidence
      = 5 ∧
    ¬((parsePropertyText loadsConfFive (some blockConfFive) "出租月租2800元".toList).confidence
        ≤ 1) := by
  have hc :
      (parsePropertyText loadsConfFive (some blockConfFive) "出租月租2800元".toList).confidence
        = 5 := by rfl
  refine ⟨hc, ?_⟩
  rw [hc]
  norm_num
